import Mathlib

/-!
Verification of `apriltag_ros`'s `ContinuousDepthDetector`
(`src/apriltag_ros/src/continuous_depth_detector.cpp`).

The nodelet is callback glue: each ROS callback is embedded as a pure
function from the node's member state and the incoming message to the new
state together with a trace of the atomic actions the handler performs
(mutex acquire/release, cv_bridge conversion, log calls, publishes).
Frames are treated as opaque values, exactly as the C++ source treats the
`cv_bridge::CvImagePtr` values it only stores and forwards.
-/

/-- An opaque decoded color frame (`cv_bridge::CvImagePtr` from the color
stream); the nodelet never inspects its contents. -/
structure ColorFrame where
  frameId : Nat
deriving DecidableEq, Repr

/-- An opaque decoded depth frame (`cv_bridge::CvImagePtr` from the depth
stream). -/
structure DepthFrame where
  frameId : Nat
deriving DecidableEq, Repr

/-- Opaque camera intrinsics (`sensor_msgs::CameraInfoConstPtr`), forwarded
unchanged to `detectTags`. -/
structure CameraInfo where
  infoId : Nat
deriving DecidableEq, Repr

/-- A `sensor_msgs::Image` on the color topic. `cv_bridge::toCvCopy` either
yields a frame or throws `cv_bridge::Exception`; we record its outcome as
`decodeResult` (`none` = malformed/unsupported encoding, conversion throws). -/
structure ImageMsg where
  decodeResult : Option ColorFrame
deriving DecidableEq, Repr

/-- A `sensor_msgs::Image` on the depth topic, with the outcome of the
passthrough `cv_bridge::toCvCopy` conversion. -/
structure DepthMsg where
  decodeResult : Option DepthFrame
deriving DecidableEq, Repr

/-- One published tag detection (element of `AprilTagDetectionArray`). -/
structure Detection where
  tagId : Nat
  tagSize : ℚ
deriving DecidableEq, Repr

/-- Modelled from the spec: the `TagDetector` class itself lives outside
this file's source (`common_functions.cpp` is not in the repository slice).
Per the spec it is a configuration snapshot taken from the Parameter Store
at construction: a tag family/size table plus the flag saying whether
transform-relative poses must be broadcast (`get_publish_tf`). -/
structure TagDetector where
  publishTf : Bool
  tagParams : List (Nat × ℚ)
deriving DecidableEq, Repr

/-- The private-node-handle Parameter Store, restricted to the keys the
nodelet reads in `onInit` / `TagDetector`'s constructor.  A `none` field
means the store does not define that option, so `pnh.param` falls back to
the hard-coded default. -/
structure ParamStore where
  publishTagDetectionsImage : Option Bool
  transportHint : Option String
  depthTransportHint : Option String
  depthMinRange : Option ℚ
  depthMaxRange : Option ℚ
  queueSize : Option Int
  publishTf : Option Bool
  tagParams : List (Nat × ℚ)
deriving DecidableEq, Repr

/-- Modelled from the spec: `TagDetector(pnh)` re-reads the tag
configuration (family/size table, publish-tf flag) from the Parameter
Store and snapshots it. -/
def TagDetector.fromParams (pnh : ParamStore) : TagDetector :=
  { publishTf := pnh.publishTf.getD false
    tagParams := pnh.tagParams }

/-- The member state of `ContinuousDepthDetector` that the callbacks read
and write: the `TagDetector` snapshot, the options captured in `onInit`,
and the cached `cv_image_` / `cv_depth_` frame pointers. -/
structure NodeState where
  tagDetector : TagDetector
  drawTagDetectionsImage : Bool
  transportHint : String
  depthTransportHint : String
  depthMinRange : ℚ
  depthMaxRange : ℚ
  queueSize : Int
  cvImage : Option ColorFrame
  cvDepth : Option DepthFrame
deriving DecidableEq, Repr

/-- The external subscriber environment observed through
`getNumSubscribers()` on the two output channels. -/
structure Env where
  numDetectionSubscribers : Nat
  numImageSubscribers : Nat
deriving DecidableEq, Repr

/-- Atomic observable actions a callback performs, in program order. -/
inductive Act where
  | lockAcquire
  | lockRelease
  | convertImage
  | logError
  | logWarnThrottle (period : ℚ)
  | logInfoOnce
  | detectTags
  | publishDetections (dets : List Detection)
  | drawDetections
  | publishImage
  | resetTagDetector
  | setDepthFrame
deriving DecidableEq, Repr

/-- The external Tag Decoder capability: `tag_detector_->detectTags(...)`
as invoked at line 131 of the source, a function of the color frame, the
depth frame, the intrinsics, the two range bounds and the tag table. -/
def DetectFn : Type :=
  ColorFrame → DepthFrame → CameraInfo → ℚ → ℚ → List (Nat × ℚ) → List Detection

/-- `ContinuousDepthDetector::onInit` (lines 40-78): constructs the
`TagDetector`, then reads `publish_tag_detections_image`,
`transport_hint`, `depth_transport_hint`, `depth_min_range`,
`depth_max_range` and `queue_size` with their hard-coded defaults.  No
frame has been received yet, so both cached frames start empty. -/
def onInit (pnh : ParamStore) : NodeState :=
  { tagDetector := TagDetector.fromParams pnh
    drawTagDetectionsImage := pnh.publishTagDetectionsImage.getD false
    transportHint := pnh.transportHint.getD "raw"
    depthTransportHint := pnh.depthTransportHint.getD "raw"
    depthMinRange := pnh.depthMinRange.getD 0
    depthMaxRange := pnh.depthMaxRange.getD 10
    queueSize := pnh.queueSize.getD 1
    cvImage := none
    cvDepth := none }

/-- `ContinuousDepthDetector::refreshTagParameters` (lines 80-88): under
`detection_mutex_`, resets `tag_detector_` to a freshly constructed
`TagDetector(pnh)`.  Nothing else in the member state is touched — in
particular `depth_min_range_` and `depth_max_range_` keep the values read
in `onInit`. -/
def refreshTagParameters (pnh : ParamStore) (st : NodeState) :
    NodeState × List Act :=
  ({ st with tagDetector := TagDetector.fromParams pnh },
   [Act.lockAcquire, Act.resetTagDetector, Act.lockRelease])

/-- `ContinuousDepthDetector::refreshParamsCallback` (lines 90-95): the
`refresh_tag_params` service handler.  Calls `refreshTagParameters()` and
returns `true`. -/
def refreshParamsCallback (pnh : ParamStore) (st : NodeState) :
    (NodeState × List Act) × Bool :=
  (refreshTagParameters pnh st, true)

/-- `ContinuousDepthDetector::imageCallback` (lines 97-140).  Takes
`detection_mutex_` for its whole duration.  First the lazy-update gate: if
there are no subscribers on either output and the detector does not
publish tf, return at once.  Otherwise convert the image (a
`cv_bridge::Exception` is caught, logged with `ROS_ERROR`, and the handler
returns); then, if no depth frame was ever stored, warn with
`ROS_WARN_THROTTLE(2.0, ...)` and return; otherwise run `detectTags` with
the stored depth frame and the range bounds, publish the detection array,
and, when `draw_tag_detections_image_` is set, draw the detections on the
frame and publish the annotated image. -/
def imageCallback (detect : DetectFn) (env : Env) (st : NodeState)
    (imageRect : ImageMsg) (cameraInfo : CameraInfo) :
    NodeState × List Act :=
  if env.numDetectionSubscribers = 0 ∧ env.numImageSubscribers = 0 ∧
      st.tagDetector.publishTf = false then
    (st, [Act.lockAcquire, Act.lockRelease])
  else
    match imageRect.decodeResult with
    | none =>
        (st, [Act.lockAcquire, Act.convertImage, Act.logError,
              Act.lockRelease])
    | some img =>
        let st1 := { st with cvImage := some img }
        match st1.cvDepth with
        | none =>
            (st1, [Act.lockAcquire, Act.convertImage,
                   Act.logWarnThrottle 2, Act.lockRelease])
        | some depth =>
            let dets := detect img depth cameraInfo st1.depthMinRange
              st1.depthMaxRange st1.tagDetector.tagParams
            if st1.drawTagDetectionsImage then
              (st1, [Act.lockAcquire, Act.convertImage,
                     Act.detectTags, Act.publishDetections dets,
                     Act.drawDetections, Act.publishImage,
                     Act.lockRelease])
            else
              (st1, [Act.lockAcquire, Act.convertImage,
                     Act.detectTags, Act.publishDetections dets,
                     Act.lockRelease])

/-- `ContinuousDepthDetector::depthCallback` (lines 141-155): converts the
depth message (passthrough encoding) and stores the result in `cv_depth_`;
on `cv_bridge::Exception` logs an error and returns, leaving `cv_depth_`
as it was (the assignment never executes).  Note: the handler takes no
lock — `detection_mutex_` appears nowhere in its body. -/
def depthCallback (st : NodeState) (msg : DepthMsg) :
    NodeState × List Act :=
  match msg.decodeResult with
  | some d => ({ st with cvDepth := some d },
               [Act.setDepthFrame, Act.logInfoOnce])
  | none => (st, [Act.logError])

/-- The gate condition of the lazy-update check at lines 105-107. -/
def gateClosed (env : Env) (st : NodeState) : Prop :=
  env.numDetectionSubscribers = 0 ∧ env.numImageSubscribers = 0 ∧
    st.tagDetector.publishTf = false

instance (env : Env) (st : NodeState) : Decidable (gateClosed env st) := by
  unfold gateClosed; infer_instance

/-- All tag detections delivered (published) by a trace, concatenated in
order. -/
def deliveredDetections (t : List Act) : List Detection :=
  t.foldr (fun a acc =>
    match a with
    | Act.publishDetections ds => ds ++ acc
    | _ => acc) []

/-- A trace that acquires the session mutex as its first action and
releases it as its last: the shape `std::scoped_lock` gives a handler that
locks for its full duration. -/
def holdsLockFullDuration (t : List Act) : Prop :=
  t.head? = some Act.lockAcquire ∧ t.getLast? = some Act.lockRelease

/-- A Parameter Store defining none of the options. -/
def emptyParamStore : ParamStore :=
  { publishTagDetectionsImage := none
    transportHint := none
    depthTransportHint := none
    depthMinRange := none
    depthMaxRange := none
    queueSize := none
    publishTf := none
    tagParams := [] }

/-- A detector environment used for concrete evaluations: one subscriber
on the detections topic, none on the image topic. -/
def envDetOnly : Env :=
  { numDetectionSubscribers := 1, numImageSubscribers := 0 }

/-- A Tag Decoder stub for concrete evaluations: finds no tags. -/
def detectNone : DetectFn :=
  fun _ _ _ _ _ _ => []

/-- A Parameter Store in which someone changed the range bounds after
startup: `depth_min_range` is 2 and `depth_max_range` is 5. -/
def rangedParamStore : ParamStore :=
  { emptyParamStore with depthMinRange := some 2, depthMaxRange := some 5 }

/- ------------------------------------------------------------------ -/
/- Theorems settling the claims                                        -/
/- ------------------------------------------------------------------ -/

/-- C1 counterexample: start from the default configuration
(`depth_min_range` = 0), let the Parameter Store now say
`depth_min_range` = 2, and call `refreshTagParameters`.  The claim says
the depth-range bounds are re-read, so post-refresh state should carry 2;
in fact the refresh leaves the bound at 0 (and the max at 10, not 5). -/
theorem refresh_does_not_reread_range_bounds :
    rangedParamStore.depthMinRange = some 2 ∧
    rangedParamStore.depthMaxRange = some 5 ∧
    (refreshTagParameters rangedParamStore (onInit emptyParamStore)).1.depthMinRange = 0 ∧
    (refreshTagParameters rangedParamStore (onInit emptyParamStore)).1.depthMaxRange = 10 := by
  refine ⟨rfl, rfl, rfl, rfl⟩

/-- C1 (amended): `refreshTagParameters` re-reads only the tag-detector
configuration (the `TagDetector` snapshot, i.e. tag family/size table and
publish-tf flag) from the Parameter Store and swaps it in; the depth-range
bounds and every other `onInit`-time option keep their previous values, so
a cycle started after the refresh observes the new tag parameters but the
initialization-time range bounds. -/
theorem refresh_rereads_only_tag_detector (pnh : ParamStore) (st : NodeState) :
    (refreshTagParameters pnh st).1.tagDetector = TagDetector.fromParams pnh ∧
    (refreshTagParameters pnh st).1.depthMinRange = st.depthMinRange ∧
    (refreshTagParameters pnh st).1.depthMaxRange = st.depthMaxRange ∧
    (refreshTagParameters pnh st).1.drawTagDetectionsImage = st.drawTagDetectionsImage ∧
    (refreshTagParameters pnh st).1.queueSize = st.queueSize ∧
    (refreshTagParameters pnh st).1.cvDepth = st.cvDepth := by
  refine ⟨rfl, rfl, rfl, rfl, rfl, rfl⟩

/-- C2: when there is no subscriber on the detections topic, none on the
annotated-image topic, and the detector does not publish tf, the image
callback returns immediately after taking and releasing the lock: the
state (including the cached frames) is unchanged, no conversion runs, the
Tag Decoder is never invoked, and nothing is published. -/
theorem imageCallback_gated_skip (detect : DetectFn) (env : Env)
    (st : NodeState) (msg : ImageMsg) (ci : CameraInfo)
    (h : gateClosed env st) :
    imageCallback detect env st msg ci =
      (st, [Act.lockAcquire, Act.lockRelease]) ∧
    Act.convertImage ∉ (imageCallback detect env st msg ci).2 ∧
    Act.detectTags ∉ (imageCallback detect env st msg ci).2 ∧
    deliveredDetections (imageCallback detect env st msg ci).2 = [] ∧
    Act.publishImage ∉ (imageCallback detect env st msg ci).2 := by
  obtain ⟨h1, h2, h3⟩ := h
  simp [imageCallback, h1, h2, h3, deliveredDetections]

/-- C2 witness: concrete evaluation of the gated-closed branch. -/
theorem imageCallback_gated_skip_witness :
    imageCallback detectNone ⟨0, 0⟩
        (onInit emptyParamStore) ⟨some ⟨7⟩⟩ ⟨3⟩ =
      (onInit emptyParamStore, [Act.lockAcquire, Act.lockRelease]) :=
  (imageCallback_gated_skip detectNone ⟨0, 0⟩ (onInit emptyParamStore)
      ⟨some ⟨7⟩⟩ ⟨3⟩ ⟨rfl, rfl, rfl⟩).1

/-- C3 counterexample: `depthCallback` is a state-mutating operation (it
replaces the cached depth frame) yet its trace contains no acquisition of
`detection_mutex_` at all, so the three operations are not all serialized
by the lock. -/
theorem depthCallback_takes_no_lock :
    (depthCallback (onInit emptyParamStore) ⟨some ⟨5⟩⟩).1.cvDepth ≠
      (onInit emptyParamStore).cvDepth ∧
    Act.lockAcquire ∉ (depthCallback (onInit emptyParamStore) ⟨some ⟨5⟩⟩).2 := by
  refine ⟨by simp [depthCallback, onInit, emptyParamStore, TagDetector.fromParams], ?_⟩
  simp [depthCallback, onInit, emptyParamStore, TagDetector.fromParams]

/-- C3 (amended): `imageCallback` and `refreshTagParameters` each hold the
single `detection_mutex_` for their full duration (every execution path
starts by acquiring it and ends by releasing it), so cycle execution and
configuration refresh are mutually serialized; `depthCallback`, however,
never acquires the lock, so depth-frame submission is not serialized with
them. -/
theorem lock_discipline (detect : DetectFn) (env : Env) (st : NodeState)
    (msg : ImageMsg) (ci : CameraInfo) (pnh : ParamStore)
    (st2 : NodeState) (st3 : NodeState) (dmsg : DepthMsg) :
    holdsLockFullDuration (imageCallback detect env st msg ci).2 ∧
    holdsLockFullDuration (refreshTagParameters pnh st2).2 ∧
    Act.lockAcquire ∉ (depthCallback st3 dmsg).2 ∧
    Act.lockRelease ∉ (depthCallback st3 dmsg).2 := by
  refine ⟨?_, ⟨rfl, rfl⟩, ?_, ?_⟩
  · unfold imageCallback holdsLockFullDuration
    split
    · exact ⟨rfl, rfl⟩
    · cases hm : msg.decodeResult with
      | none => exact ⟨rfl, rfl⟩
      | some img =>
          simp only
          cases hd : st.cvDepth with
          | none => simp [hd]
          | some depth =>
              simp only [hd]
              split <;> exact ⟨rfl, rfl⟩
  · unfold depthCallback
    cases dmsg.decodeResult <;> simp
  · unfold depthCallback
    cases dmsg.decodeResult <;> simp

/-- C4: gated open but no depth frame ever received — the cycle converts
the image, logs only the 2-second-throttled warning (`ROS_WARN_THROTTLE`,
at most once per throttle interval, never a per-call unthrottled log),
invokes no Tag Decoder, publishes nothing (the delivered detection set is
empty), and returns normally. -/
theorem imageCallback_no_depth (detect : DetectFn) (env : Env)
    (st : NodeState) (msg : ImageMsg) (ci : CameraInfo) (img : ColorFrame)
    (hgate : ¬ gateClosed env st)
    (himg : msg.decodeResult = some img)
    (hdepth : st.cvDepth = none) :
    imageCallback detect env st msg ci =
      ({ st with cvImage := some img },
       [Act.lockAcquire, Act.convertImage,
        Act.logWarnThrottle 2, Act.lockRelease]) ∧
    Act.detectTags ∉ (imageCallback detect env st msg ci).2 ∧
    deliveredDetections (imageCallback detect env st msg ci).2 = [] ∧
    Act.logError ∉ (imageCallback detect env st msg ci).2 := by
  rw [show (gateClosed env st ↔
      (env.numDetectionSubscribers = 0 ∧ env.numImageSubscribers = 0 ∧
        st.tagDetector.publishTf = false)) from Iff.rfl] at hgate
  simp [imageCallback, hgate, himg, hdepth, deliveredDetections]

/-- C4 witness: a subscriber exists, the frame decodes, no depth was ever
stored; the call yields exactly the throttled warning and no detections. -/
theorem imageCallback_no_depth_witness :
    ¬ gateClosed envDetOnly (onInit emptyParamStore) ∧
    (imageCallback detectNone envDetOnly (onInit emptyParamStore)
        ⟨some ⟨7⟩⟩ ⟨3⟩).2 =
      [Act.lockAcquire, Act.convertImage,
       Act.logWarnThrottle 2, Act.lockRelease] := by
  refine ⟨by decide, ?_⟩
  have h := imageCallback_no_depth detectNone envDetOnly
    (onInit emptyParamStore) ⟨some ⟨7⟩⟩ ⟨3⟩ ⟨7⟩ (by decide) rfl rfl
  rw [h.1]

/-- C5: gated open but the image conversion fails (malformed encoding,
`cv_bridge::Exception`) — the exception is caught inside the handler,
an error is logged, the handler returns normally with the state unchanged,
no Tag Decoder runs and the delivered detection set is empty; nothing
escapes the callback. -/
theorem imageCallback_decode_failure (detect : DetectFn) (env : Env)
    (st : NodeState) (msg : ImageMsg) (ci : CameraInfo)
    (hgate : ¬ gateClosed env st)
    (himg : msg.decodeResult = none) :
    imageCallback detect env st msg ci =
      (st, [Act.lockAcquire, Act.convertImage, Act.logError,
            Act.lockRelease]) ∧
    Act.detectTags ∉ (imageCallback detect env st msg ci).2 ∧
    deliveredDetections (imageCallback detect env st msg ci).2 = [] := by
  rw [show (gateClosed env st ↔
      (env.numDetectionSubscribers = 0 ∧ env.numImageSubscribers = 0 ∧
        st.tagDetector.publishTf = false)) from Iff.rfl] at hgate
  simp [imageCallback, hgate, himg, deliveredDetections]

/-- C5 witness: a malformed image with a detections subscriber present is
caught and logged, and the call returns with the state unchanged. -/
theorem imageCallback_decode_failure_witness :
    ¬ gateClosed envDetOnly (onInit emptyParamStore) ∧
    imageCallback detectNone envDetOnly (onInit emptyParamStore)
        ⟨none⟩ ⟨3⟩ =
      (onInit emptyParamStore,
       [Act.lockAcquire, Act.convertImage, Act.logError,
        Act.lockRelease]) := by
  refine ⟨by decide, ?_⟩
  exact (imageCallback_decode_failure detectNone envDetOnly
    (onInit emptyParamStore) ⟨none⟩ ⟨3⟩ (by decide) rfl).1

/-- C6 counterexample: with `publish_tag_detections_image` set, a
detections subscriber present, zero subscribers on the annotated-image
topic, a stored depth frame and a decodable image, the completed cycle
still publishes the annotated image — emission is gated by the
configuration flag, not by the existence of an image subscriber. -/
theorem annotated_image_published_without_subscriber :
    envDetOnly.numImageSubscribers = 0 ∧
    Act.publishImage ∈
      (imageCallback detectNone envDetOnly
        { onInit emptyParamStore with
            drawTagDetectionsImage := true, cvDepth := some ⟨5⟩ }
        ⟨some ⟨7⟩⟩ ⟨3⟩).2 := by
  constructor
  · rfl
  · simp [imageCallback, envDetOnly, onInit, emptyParamStore,
      TagDetector.fromParams, detectNone]

/-- C6 (amended): the annotated image is published exactly when the cycle
completes (gate open, image decodes, a depth frame is stored) and the
`publish_tag_detections_image` configuration flag is set; the subscriber
count of the annotated-image topic plays no role.  In particular with the
flag unset it is never published. -/
theorem annotated_image_iff_flag (detect : DetectFn) (env : Env)
    (st : NodeState) (msg : ImageMsg) (ci : CameraInfo) :
    Act.publishImage ∈ (imageCallback detect env st msg ci).2 ↔
      (¬ gateClosed env st ∧ (∃ img, msg.decodeResult = some img) ∧
        st.cvDepth ≠ none ∧ st.drawTagDetectionsImage = true) := by
  rw [show (gateClosed env st ↔
      (env.numDetectionSubscribers = 0 ∧ env.numImageSubscribers = 0 ∧
        st.tagDetector.publishTf = false)) from Iff.rfl]
  unfold imageCallback
  split
  · next hg => simp [hg]
  · next hg =>
      cases hm : msg.decodeResult with
      | none => simp [hg, hm]
      | some img =>
          simp only
          cases hd : st.cvDepth with
          | none => simp [hg, hm, hd]
          | some depth =>
              simp only [hd]
              by_cases hf : st.drawTagDetectionsImage = true
              · simp [hf, hg, hm, hd]
              · simp [hf, hg, hm, hd]

/-- C7: a depth submission whose conversion succeeds replaces the cached
depth frame with the new one, modifies nothing else (the whole new state
is the old one with only `cv_depth_` updated), and triggers no detection
cycle: no Tag Decoder call and no publication appear in its trace. -/
theorem depthCallback_replaces_frame (st : NodeState) (msg : DepthMsg)
    (d : DepthFrame) (h : msg.decodeResult = some d) :
    depthCallback st msg =
      ({ st with cvDepth := some d },
       [Act.setDepthFrame, Act.logInfoOnce]) ∧
    Act.detectTags ∉ (depthCallback st msg).2 ∧
    deliveredDetections (depthCallback st msg).2 = [] := by
  simp [depthCallback, h, deliveredDetections]

/-- C7 witness: concrete depth submission on the initial state. -/
theorem depthCallback_replaces_frame_witness :
    depthCallback (onInit emptyParamStore) ⟨some ⟨5⟩⟩ =
      ({ onInit emptyParamStore with cvDepth := some ⟨5⟩ },
       [Act.setDepthFrame, Act.logInfoOnce]) :=
  (depthCallback_replaces_frame (onInit emptyParamStore) ⟨some ⟨5⟩⟩ ⟨5⟩ rfl).1

/-- C8: with a Parameter Store defining none of the options, `onInit`
initializes `depth_min_range` = 0.0, `depth_max_range` = 10.0 (so the
default range gate is [0, 10]), `publish_tag_detections_image` = false,
`queue_size` = 1, and both transport hints "raw". -/
theorem onInit_defaults (pnh : ParamStore)
    (h1 : pnh.publishTagDetectionsImage = none)
    (h2 : pnh.transportHint = none)
    (h3 : pnh.depthTransportHint = none)
    (h4 : pnh.depthMinRange = none)
    (h5 : pnh.depthMaxRange = none)
    (h6 : pnh.queueSize = none) :
    (onInit pnh).depthMinRange = 0 ∧
    (onInit pnh).depthMaxRange = 10 ∧
    (onInit pnh).drawTagDetectionsImage = false ∧
    (onInit pnh).queueSize = 1 ∧
    (onInit pnh).transportHint = "raw" ∧
    (onInit pnh).depthTransportHint = "raw" := by
  simp [onInit, h1, h2, h3, h4, h5, h6]

/-- C8 witness: the defaults evaluated on the empty Parameter Store. -/
theorem onInit_defaults_witness :
    emptyParamStore.publishTagDetectionsImage = none ∧
    (onInit emptyParamStore).depthMinRange = 0 ∧
    (onInit emptyParamStore).depthMaxRange = 10 := by
  have h := onInit_defaults emptyParamStore rfl rfl rfl rfl rfl rfl
  exact ⟨rfl, h.1, h.2.1⟩

/-- C9: a depth submission whose conversion throws leaves the state — in
particular the previously current depth frame — entirely unchanged; only
an error is logged. -/
theorem depthCallback_decode_failure_keeps_frame (st : NodeState)
    (msg : DepthMsg) (h : msg.decodeResult = none) :
    depthCallback st msg = (st, [Act.logError]) := by
  simp [depthCallback, h]

/-- C9 witness: a malformed depth message after a good one leaves the
stored frame in place. -/
theorem depthCallback_decode_failure_keeps_frame_witness :
    depthCallback
        { onInit emptyParamStore with cvDepth := some ⟨5⟩ } ⟨none⟩ =
      ({ onInit emptyParamStore with cvDepth := some ⟨5⟩ },
       [Act.logError]) :=
  depthCallback_decode_failure_keeps_frame
    { onInit emptyParamStore with cvDepth := some ⟨5⟩ } ⟨none⟩ rfl

/-- C10: the `refresh_tag_params` service handler returns `true` for every
request, whatever the Parameter Store contains and whatever the current
state is: the control surface's failure outcome is never produced. -/
theorem refreshParamsCallback_always_true (pnh : ParamStore)
    (st : NodeState) :
    (refreshParamsCallback pnh st).2 = true := rfl
